import Mathlib

/-!
Shallow embedding of the Position Lifecycle Engine of the AUTORUNBOT
repository (order_executor.py, state_manager.py, funding_manager.py,
auto_selector.py), together with theorems settling the spec claims.

Conventions of the embedding:
* Python floats are modelled as exact rationals (the claims concern
  branch conditions and algebraic identities, not binary rounding).
* Python int(x) truncation toward zero is modelled by pyInt.
* Gateway observations (market price, leverage, balance, order responses)
  are explicit inputs, mirroring the source functions' okx_client calls.
-/

/-- Direction of a position or order: the strings "buy" / "sell" of the
source. -/
inductive Dir where
  | buy
  | sell
deriving DecidableEq, Repr

/-- Runtime configuration keys used by the embedded functions, with the
default values of the corresponding config.get(key, default) call sites. -/
structure Config where
  MIN_SINGLE_POSITION_RATIO : ℚ := 1/100
  MAX_SINGLE_POSITION_RATIO : ℚ := 3/20
  MAX_LEVERAGE_LIMIT : ℚ := 10
  CAPITAL_BUFFER_RATIO : ℚ := 1/10
  STOP_LOSS_RATIO : ℚ := -1/20
  ORDER_MARGIN_BUFFER : ℚ := 11/10
  MAX_CONTRACTS_PER_ORDER : ℤ := 6000
  MAX_RETRY_ON_FAILURE : ℕ := 3
  MAX_ADD_TIMES : ℕ := 3
  MAX_REDUCE_TIMES : ℕ := 2
  REQUIRE_PROFIT_TO_CLOSE : Bool := true
  TAKE_PROFIT_VALUE : ℚ := 1/5
  OPEN_THRESHOLD : ℚ := 3
  RESERVE_PROFIT_RATIO : ℚ := 1/2
  MIN_PROFIT_TO_RESERVE : ℚ := 5

/-- The configuration with every key left at its call-site default. -/
def defaultConfig : Config := {}

/-- Python int(x): truncation toward zero on a rational. -/
def pyInt (q : ℚ) : ℤ := if 0 ≤ q then ⌊q⌋ else ⌈q⌉

/-- Python min on two values of a linear order (kernel-reducible form). -/
def pymin {α : Type} [LinearOrder α] (a b : α) : α := if a ≤ b then a else b

/-- Python max on two values of a linear order (kernel-reducible form). -/
def pymax {α : Type} [LinearOrder α] (a b : α) : α := if b ≤ a then a else b

theorem pymin_eq_min {α : Type} [LinearOrder α] (a b : α) : pymin a b = min a b := by
  unfold pymin
  split
  · next h => exact (min_eq_left h).symm
  · next h => exact (min_eq_right (le_of_not_le h)).symm

theorem pymax_eq_max {α : Type} [LinearOrder α] (a b : α) : pymax a b = max a b := by
  unfold pymax
  split
  · next h => exact (max_eq_left h).symm
  · next h => exact (max_eq_right (le_of_not_le h)).symm

/-- Embeds calculate_investment_ratio (order_executor.py lines 13-20):
ratio = confidence/100 * max_ratio, clamped into [min_ratio, max_ratio]. -/
def calculate_investment_ratio (confidence : ℚ) (config : Config) : ℚ :=
  let min_ratio := config.MIN_SINGLE_POSITION_RATIO
  let max_ratio := config.MAX_SINGLE_POSITION_RATIO
  let ratio := (confidence / 100) * max_ratio
  pymax min_ratio (pymin ratio max_ratio)

/-- Gateway observations consumed by allocate_capital_for_position:
market price (None modelled as Option), the exchange-reported long and
short leverage, and the trade balance. -/
structure AllocInput where
  price : Option ℚ
  levLong : ℚ
  levShort : ℚ
  balance : ℚ

/-- Errors of the allocation path: the ValueError raised on a missing or
non-positive market price (order_executor.py lines 50-51). -/
inductive AllocError where
  | invalidPrice
deriving DecidableEq, Repr

/-- Balance after the capital buffer: balance * (1 - CAPITAL_BUFFER_RATIO)
(order_executor.py line 62). -/
def availableAfterBuffer (config : Config) (balance : ℚ) : ℚ :=
  balance * (1 - config.CAPITAL_BUFFER_RATIO)

/-- The reserve subtracted for short allocations (order_executor.py
line 74): (available / 2) * (1 + |STOP_LOSS_RATIO|). -/
def reservedAmountShort (config : Config) (balance : ℚ) : ℚ :=
  let available := availableAfterBuffer config balance
  (available / 2) * (1 + |config.STOP_LOSS_RATIO|)

/-- Capital allocated to this order before the confidence ratio
(order_executor.py lines 64-76): full available when no symbol is
selected, otherwise the long or short share of available, with the short
side first subtracting reservedAmountShort (clamped at zero). -/
def allocatedCapital (direction : Dir) (config : Config) (balance : ℚ)
    (longCount shortCount : ℕ) : ℚ :=
  let available := availableAfterBuffer config balance
  let total : ℚ := (longCount : ℚ) + (shortCount : ℚ)
  if longCount + shortCount = 0 then
    available
  else if direction = Dir.buy then
    available * ((longCount : ℚ) / total)
  else
    let reserved_amount := reservedAmountShort config balance
    let free_amount := pymax 0 (available - reserved_amount)
    free_amount * ((shortCount : ℚ) / total)

/-- Margin per contract (order_executor.py line 81):
price / leverage * ORDER_MARGIN_BUFFER. -/
def marginPerContract (config : Config) (price leverage : ℚ) : ℚ :=
  price / leverage * config.ORDER_MARGIN_BUFFER

/-- Embeds allocate_capital_for_position (order_executor.py lines 37-97):
resolves leverage, splits capital by direction, sizes the order by the
confidence ratio and clamps the contract count into
[1, max_possible_contracts, MAX_CONTRACTS_PER_ORDER]. There is no failure
branch other than the invalid-price ValueError. Rational division is
total, so a non-positive leverage (where Python would raise
ZeroDivisionError) is outside the domain the theorems instantiate. -/
def allocate_capital_for_position (direction : Dir) (confidence : ℚ)
    (config : Config) (longCount shortCount : ℕ) (inp : AllocInput) :
    Except AllocError (ℤ × ℚ × ℚ) :=
  match inp.price with
  | none => .error .invalidPrice
  | some price =>
    if price ≤ 0 then .error .invalidPrice
    else
      let leverage0 := if direction = Dir.buy then inp.levLong else inp.levShort
      let leverage := pymin leverage0 config.MAX_LEVERAGE_LIMIT
      let allocated_capital :=
        allocatedCapital direction config inp.balance longCount shortCount
      let ratio := calculate_investment_ratio confidence config
      let budget := allocated_capital * ratio
      let margin_per_contract := marginPerContract config price leverage
      let max_possible_contracts := pyInt (allocated_capital / margin_per_contract)
      let contracts0 := pyInt (budget / margin_per_contract)
      let contracts :=
        pymax 1 (pymin contracts0 (pymin max_possible_contracts config.MAX_CONTRACTS_PER_ORDER))
      .ok (contracts, price, leverage)

/-- The budget figure of the allocation (order_executor.py line 79):
allocated capital times the confidence ratio. -/
def allocationBudget (direction : Dir) (confidence : ℚ) (config : Config)
    (balance : ℚ) (longCount shortCount : ℕ) : ℚ :=
  allocatedCapital direction config balance longCount shortCount *
    calculate_investment_ratio confidence config

/-! ## Order submission protocol (send_order, order_executor.py lines 123-174) -/

/-- Lower-casing of a string, character by character (Python str.lower on
the ASCII order statuses). -/
def strLower (s : String) : String := ⟨s.data.map Char.toLower⟩

/-- Prefix test on character lists. -/
def isPrefixCL : List Char → List Char → Bool
  | [], _ => true
  | _ :: _, [] => false
  | a :: as, b :: bs => a = b && isPrefixCL as bs

/-- Substring containment on character lists (Python needle in haystack). -/
def containsCL (needle : List Char) : List Char → Bool
  | [] => isPrefixCL needle []
  | c :: t => isPrefixCL needle (c :: t) || containsCL needle t

/-- One element of the data list of a gateway placement response: the
order identifier (absent or empty when missing) and the sMsg text. -/
structure RespItem where
  ordId : Option String
  sMsg : String
deriving DecidableEq, Repr

/-- A parsed placement response: code (resp.get with default "0") and the
data list. -/
structure GoodResp where
  code : String := "0"
  data : List RespItem := []
deriving DecidableEq, Repr

/-- A gateway response to place_order: either not a dict (malformed) or a
parsed dict. -/
inductive PlaceResp where
  | malformed
  | ok (r : GoodResp)
deriving DecidableEq, Repr

/-- Everything the gateway would answer during one attempt of the retry
loop: the place_order response and, were the order polled, the
get_order_status answer (None modelled as Option.none). -/
structure Attempt where
  place : PlaceResp
  status : Option String := none
deriving DecidableEq, Repr

/-- Python truthiness of the status string together with the membership
test of line 150: status and status.lower() in ("filled", "partial-filled"). -/
def statusIsFilled (status : Option String) : Bool :=
  match status with
  | none => false
  | some st =>
    st ≠ "" && (strLower st = "filled" || strLower st = "partial-filled")

/-- The insufficient-margin test of line 161: any item whose sMsg contains
"Insufficient USDT margin". -/
def itemInsufficientMargin (item : RespItem) : Bool :=
  containsCL "Insufficient USDT margin".data item.sMsg.data

/-- Python truthiness of data[0].get("ordId"): present and non-empty. -/
def itemHasOrdId (item : RespItem) : Bool := item.ordId.getD "" ≠ ""

/-- What one iteration of the send_order retry loop decides, in the order
the source checks it (lines 135-167): malformed response retries; a data
head with a truthy ordId is polled and accepted only when the status is
filled or partial-filled; otherwise code 50113 returns immediately, then
an insufficient-margin sMsg returns immediately, and anything else
retries. -/
inductive AttemptOutcome where
  | success (item : RespItem)
  | fatalAuth
  | insufficientMargin
  | retryNext
deriving DecidableEq, Repr

/-- Decision taken by one loop iteration of send_order for one gateway
attempt. -/
def attemptOutcome (a : Attempt) : AttemptOutcome :=
  match a.place with
  | .malformed => .retryNext
  | .ok r =>
    let filledItem : Option RespItem :=
      match r.data with
      | item :: _ =>
        if itemHasOrdId item && statusIsFilled a.status then some item else none
      | [] => none
    match filledItem with
    | some item => .success item
    | none =>
      if r.code = "50113" then .fatalAuth
      else if r.data.any itemInsufficientMargin then .insufficientMargin
      else .retryNext

/-- Observable outcome of send_order: the value returned to the caller
(data[0] on success, None on fatal auth error, insufficient margin and
retry exhaustion alike), the number of place_order calls made, and the
backoff delays slept, in seconds and in order. -/
structure SendOutcome where
  result : Option RespItem
  calls : ℕ
  sleeps : List ℕ
deriving DecidableEq, Repr

/-- The retry loop of send_order (order_executor.py lines 132-170):
remaining attempts, current wait_time; each failed attempt sleeps
wait_time and doubles it up to the cap of 8. Attempts beyond the supplied
trace behave as malformed responses. -/
def sendOrderGo : List Attempt → ℕ → ℕ → SendOutcome
  | _, 0, _ => ⟨none, 0, []⟩
  | trace, n + 1, wait =>
    let a := trace.headD ⟨.malformed, none⟩
    match attemptOutcome a with
    | .success item => ⟨some item, 1, []⟩
    | .fatalAuth => ⟨none, 1, []⟩
    | .insufficientMargin => ⟨none, 1, []⟩
    | .retryNext =>
      let rest := sendOrderGo trace.tail n (pymin (wait * 2) 8)
      ⟨rest.result, rest.calls + 1, wait :: rest.sleeps⟩

/-- Embeds send_order (order_executor.py lines 123-174) in live (non-test)
mode: up to MAX_RETRY_ON_FAILURE attempts with wait_time starting at 1.
The function makes no state_manager call, so it has no store parameter. -/
def send_order (config : Config) (trace : List Attempt) : SendOutcome :=
  sendOrderGo trace config.MAX_RETRY_ON_FAILURE 1

/-- The executor-level view of send_order against an arbitrary
position-store state: the source body contains no state_manager reference
(order_executor.py lines 123-174), so the store passes through unchanged. -/
def sendOrderWithStore {σ : Type} (config : Config) (trace : List Attempt)
    (store : σ) : SendOutcome × σ :=
  (send_order config trace, store)

/-! ## Position store (state_manager.py)

The store keeps a sqlite table (db) and a module-level read cache holding
the last loaded dict together with its load time; the cache is valid for
five seconds (state_manager.py lines 88-129). Timestamps are modelled as
integral seconds. The loaded dict is shared by reference: the mutating
functions change the very object the cache points to.

The module lock at state_manager.py line 20 is threading.Lock(), which is
NOT reentrant. Each mutator (update_position_state line 163,
update_position_after_reduce line 193, remove_position line 209) acquires
_lock and then calls _save_position_state, which re-acquires _lock at
line 135: the same thread blocks forever. Consequently no mutator ever
commits a row to the table or returns; on a fresh cache the in-place dict
mutation at lines 165-183 / 195-200 / 211-212 does happen first (the
fresh-cache path of load_position_state, lines 97-98, returns the shared
dict without touching _lock) and is observable to other threads through
the cache; on a stale or absent cache the thread blocks even earlier,
inside load_position_state at line 101, before any mutation. The
embedding makes this explicit with StoreOutcome: blocks carries the state
observable while the call hangs forever. -/

/-- A per-symbol position record (the columns of the position_state
table, state_manager.py lines 38-49; the extra JSON blob is not used by
any claim). -/
structure Position where
  direction : Dir
  contracts : ℤ
  price : ℚ
  confidence : ℚ
  add_times : ℕ
  reduce_times : ℕ
deriving DecidableEq, Repr

/-- The in-memory positions dict: symbol to record. -/
def PosMap : Type := String → Option Position

/-- Store state: committed table plus the read cache (snapshot and its
load time). -/
structure StoreState where
  db : PosMap
  cache : Option (PosMap × ℤ)

/-- Embeds load_position_state (state_manager.py lines 91-129): a cache
younger than five seconds is returned as is unless force_reload; otherwise
the table is read and becomes the new cache. Returns the dict and the new
store state. -/
def load_position_state (force : Bool) (now : ℤ) (st : StoreState) :
    PosMap × StoreState :=
  match st.cache with
  | some (c, t) =>
    if force = false ∧ now - t < 5 then (c, st)
    else (st.db, { st with cache := some (st.db, now) })
  | none => (st.db, { st with cache := some (st.db, now) })

/-- Outcome of a state_manager mutator call: returns with a new state, or
blocks forever on the non-reentrant _lock, in which case the carried
state is what other threads observe while the call hangs - the table
field is never written by a blocked call. -/
inductive StoreOutcome where
  | returns (st : StoreState)
  | blocks (st : StoreState)

/-- The state observable after (or during, for a permanently blocked
call) a mutator invocation. -/
def StoreOutcome.state : StoreOutcome → StoreState
  | .returns st => st
  | .blocks st => st

/-- Whether the mutator call blocks forever instead of returning. -/
def StoreOutcome.isBlocked : StoreOutcome → Bool
  | .returns _ => false
  | .blocks _ => true

/-- The dict mutation of update_position_state (state_manager.py lines
165-183): insert a fresh record, or add to / overwrite the contract count
and refresh price and confidence, then apply the add_times /
reduce_times keys of the extra dict when given. -/
def applyUpsert (symbol : String) (direction : Dir) (contracts : ℤ)
    (price confidence : ℚ) (extraAdd extraReduce : Option ℕ) (add : Bool)
    (base : PosMap) : PosMap :=
  let pos0 : Position :=
    match base symbol with
    | none =>
      { direction := direction, contracts := contracts, price := price,
        confidence := confidence, add_times := 0, reduce_times := 0 }
    | some p =>
      { p with
        contracts := if add then p.contracts + contracts else contracts,
        price := price, confidence := confidence }
  let pos1 : Position :=
    { pos0 with
      add_times := extraAdd.getD pos0.add_times,
      reduce_times := extraReduce.getD pos0.reduce_times }
  fun s => if s = symbol then some pos1 else base s

/-- Embeds update_position_state (state_manager.py lines 159-187). The
function acquires _lock (line 163) and calls load_position_state()
(line 164): with a fresh cache the shared dict is returned without
touching _lock (lines 97-98) and is mutated in place (lines 165-183),
after which _save_position_state (line 185) re-acquires the already-held
non-reentrant _lock (line 135) and the thread blocks forever - the table
is never written and the call never returns. With a stale or absent
cache, load_position_state itself re-acquires _lock (line 101) and the
thread blocks before any mutation. -/
def update_position_state (symbol : String) (direction : Dir)
    (contracts : ℤ) (price confidence : ℚ)
    (extraAdd extraReduce : Option ℕ) (add : Bool) (now : ℤ)
    (st : StoreState) : StoreOutcome :=
  match st.cache with
  | some (c, t) =>
    if now - t < 5 then
      let positions := applyUpsert symbol direction contracts price confidence
        extraAdd extraReduce add c
      .blocks { st with cache := some (positions, t) }
    else .blocks st
  | none => .blocks st

/-- The dict mutation of update_position_after_reduce (state_manager.py
lines 195-200): decrement the contract count, set reduce_times when a
new value is given, and drop the record once the count is non-positive. -/
def applyReduce (symbol : String) (reduced : ℤ) (newReduceTimes : Option ℕ)
    (m : PosMap) : PosMap :=
  match m symbol with
  | none => m
  | some p =>
    let p1 : Position :=
      { p with
        contracts := p.contracts - reduced,
        reduce_times := newReduceTimes.getD p.reduce_times }
    if p1.contracts ≤ 0 then fun s => if s = symbol then none else m s
    else fun s => if s = symbol then some p1 else m s

/-- Embeds update_position_after_reduce (state_manager.py lines 189-203):
the same shape as update_position_state - acquire _lock (line 193), load
(line 194: fresh cache needs no lock, stale cache blocks at line 101),
mutate the shared dict in place (lines 195-200), then block forever in
_save_position_state (line 201 re-acquiring line 135). The decrement is
never committed to the table and the call never returns. -/
def update_position_after_reduce (symbol : String) (reduced : ℤ)
    (newReduceTimes : Option ℕ) (now : ℤ) (st : StoreState) : StoreOutcome :=
  match st.cache with
  | some (c, t) =>
    if now - t < 5 then
      .blocks { st with cache := some (applyReduce symbol reduced newReduceTimes c, t) }
    else .blocks st
  | none => .blocks st

/-- The dict mutation of remove_position (state_manager.py lines
211-212), performed on the shared cached dict before the call blocks
forever in _save_position_state (line 213 re-acquiring the held _lock at
line 135): like the other mutators, remove_position never returns. -/
def removePos (symbol : String) (m : PosMap) : PosMap :=
  fun s => if s = symbol then none else m s

/-! ## Profit reserve (funding_manager.py) -/

/-- Embeds process_profit_transfer (funding_manager.py lines 59-75) as a
transition on the reserve: below the threshold nothing happens; at or
above it the transfer is attempted, and only a successful transfer resets
the reserve to zero. Returns (reported success, new reserve). -/
def process_profit_transfer (threshold reserve : ℚ) (transferOk : Bool) :
    Bool × ℚ :=
  if threshold ≤ reserve then
    if transferOk then (true, 0) else (false, reserve)
  else (false, reserve)

/-! ## Executor-level trade operations (order_executor.py)

These functions run inside one executor pass, whose reads all go through
the shared cached dict (a pass starts by loading it, and the dict stays
fresh for the pass); reads are modelled on the dict field of ExecState.
Every state_manager mutator these functions call self-deadlocks on the
non-reentrant _lock (see the Position store section): the mutator first
performs its in-place mutation of the shared dict - modelled with
applyReduce / removePos on the dict field - and then blocks forever, so
the committed table is never written and the executor function never
resumes past the call. ExecOutcome makes this explicit: blocks carries
the state observable while the thread hangs, together with the orders
already submitted to the gateway before the hang. Gateway answers
(market price, send_order success) are inputs via Env. -/

/-- The four trade operations of the executor. -/
inductive Op where
  | openOp
  | addOp
  | reduceOp
  | closeOp
deriving DecidableEq, Repr

/-- Opposite order side. -/
def revDir : Dir → Dir
  | .buy => .sell
  | .sell => .buy

/-- Embeds get_order_params (order_executor.py lines 198-208): open and
add trade in the position direction, reduce and close trade the reversed
direction with reduceOnly. -/
def get_order_params (positionDirection : Dir) : Op → Dir × Bool
  | .openOp => (positionDirection, false)
  | .addOp => (positionDirection, false)
  | .reduceOp => (revDir positionDirection, true)
  | .closeOp => (revDir positionDirection, true)

/-- An order handed to send_order: symbol, side, contract count,
reduce-only flag. -/
structure Order where
  symbol : String
  side : Dir
  contracts : ℤ
  reduceOnly : Bool
deriving DecidableEq, Repr

/-- Executor state: the shared in-memory positions dict (the cached dict
every read goes through), the committed position_state table (which no
mutator ever succeeds in writing), and the reserved-profit scalar of
state_manager (add_profit / get_reserved_profit / reset_reserved_profit,
state_manager.py lines 258-303, which take the free _lock standalone and
do work when called outside a blocked mutator). -/
structure ExecState where
  dict : PosMap
  table : PosMap
  reserved : ℚ

/-- Gateway environment of one operation: whether send_order returns a
filled result, and the market price (None when get_market_price fails). -/
structure Env where
  sendOk : Bool
  price : Option ℚ

/-- Outcome of an executor-level operation: the call returns a value, or
it blocks forever inside a state_manager mutator. Both carry the
observable state and the orders submitted to the gateway before the
block. -/
inductive ExecOutcome (α : Type) where
  | returns (val : α) (st : ExecState) (orders : List Order)
  | blocks (st : ExecState) (orders : List Order)

/-- The orders the operation submitted to the gateway (these go out
through send_order before any store mutation is attempted). -/
def ExecOutcome.orders {α : Type} : ExecOutcome α → List Order
  | .returns _ _ ords => ords
  | .blocks _ ords => ords

/-- The state observable after the call returns, or while it hangs. -/
def ExecOutcome.stateAfter {α : Type} : ExecOutcome α → ExecState
  | .returns _ st _ => st
  | .blocks st _ => st

/-- Whether the operation blocks forever instead of returning. -/
def ExecOutcome.isBlocked {α : Type} : ExecOutcome α → Bool
  | .returns _ _ _ => false
  | .blocks _ _ => true

/-- Embeds try_close_position (order_executor.py lines 227-321) in live
mode. When no record is held, or send_order fails, the function returns
None. When the close order fills, wait_for_position_close polls and
returns (line 260), and then state_manager.remove_position (line 261)
deletes the record from the shared dict and blocks forever re-acquiring
the non-reentrant _lock inside _save_position_state (state_manager.py
:213 -> :135): the pnl computation, trade log, reserve update, sweep call
and the success return at lines 263-315 are all unreachable, and the call
never returns. -/
def try_close_position (symbol : String) (_config : Config) (env : Env)
    (st : ExecState) : ExecOutcome (Option Unit) :=
  match st.dict symbol with
  | none => .returns none st []
  | some current =>
    let dirRo := get_order_params current.direction Op.closeOp
    let order : Order := ⟨symbol, dirRo.1, current.contracts, dirRo.2⟩
    if env.sendOk = false then .returns none st [order]
    else .blocks { st with dict := removePos symbol st.dict } [order]

/-- The reduce quantity max(1, contracts // 2) of order_executor.py
lines 506 and 692 (Python // is floor division). -/
def halfQty (contracts : ℤ) : ℤ := pymax 1 (Int.fdiv contracts 2)

/-- Embeds try_reduce_position (order_executor.py lines 491-593) in live
mode. A short position is never reduced: the function hands off to
try_close_position (lines 501-504). Otherwise a reduce-only order for
half the contracts (at least one) is submitted; when it fills,
update_position_after_reduce (line 534) decrements the shared dict - with
no new reduce_times value, so the counter field is carried over - and
then blocks forever at its save (state_manager.py :201 -> :135): the pnl
and reserve code at lines 536-586 and the success return are unreachable,
and no signal-driven reduce ever completes. -/
def try_reduce_position (symbol : String) (config : Config) (env : Env)
    (st : ExecState) : ExecOutcome (Option Unit) :=
  match st.dict symbol with
  | none => .returns none st []
  | some current =>
    if current.direction = Dir.sell then try_close_position symbol config env st
    else
      let d := halfQty current.contracts
      let dirRo := get_order_params current.direction Op.reduceOp
      let order : Order := ⟨symbol, dirRo.1, d, dirRo.2⟩
      if env.sendOk = false then .returns none st [order]
      else .blocks { st with dict := applyReduce symbol d none st.dict } [order]

/-- The close branches of handle_removed_position (order_executor.py
lines 626-655, 658-690, 724-755, 760-792, 827-859): call
try_close_position; when it blocks, the caller blocks with it. Were it
ever to return success, the branch's own state_manager.remove_position
(e.g. line 629) would delete from the dict and block the same way, so the
True return of these branches is unreachable in live mode. A None return
(send failure) yields False. -/
def handleCloseBranch (symbol : String) (config : Config) (env : Env)
    (st : ExecState) : ExecOutcome Bool :=
  match try_close_position symbol config env st with
  | .blocks st' ords => .blocks st' ords
  | .returns none st' ords => .returns false st' ords
  | .returns (some _) st' ords =>
    .blocks { st' with dict := removePos symbol st'.dict } ords

/-- The long reduce branches of handle_removed_position (order_executor.py
lines 692-723 and 794-826): call try_reduce_position; when it blocks, the
caller blocks with it and the second update_position_after_reduce at
line 697 never runs. Were try_reduce_position ever to return success,
that second call would decrement the dict again and block itself, so the
True return is unreachable in live mode. -/
def handleReduceBranch (symbol : String) (contracts : ℤ) (config : Config)
    (env : Env) (st : ExecState) : ExecOutcome Bool :=
  let reduce_qty := halfQty contracts
  match try_reduce_position symbol config env st with
  | .blocks st' ords => .blocks st' ords
  | .returns none st' ords => .returns false st' ords
  | .returns (some _) st' ords =>
    .blocks { st' with dict := applyReduce symbol reduce_qty none st'.dict } ords

/-- Embeds handle_removed_position (order_executor.py lines 595-861):
position sync for a held symbol against the latest selection, given as
the selection confidence when the symbol is still listed. Shorts are
forced to a full close in every exit branch; every exit branch blocks
forever once its order fills, inside the state_manager mutator it calls. -/
def handle_removed_position (symbol : String) (pos : Position)
    (latestConf : Option ℚ) (config : Config) (env : Env) (st : ExecState) :
    ExecOutcome Bool :=
  let current_conf := pos.confidence
  let reduce_times := pos.reduce_times
  let direction := pos.direction
  let contracts := pos.contracts
  let entry_price := pos.price
  match env.price with
  | none => .returns false st []
  | some price =>
    if price = 0 then .returns false st []
    else
      match latestConf with
      | none =>
        let profit :=
          if direction = Dir.buy then price - entry_price else entry_price - price
        if 0 < profit ∨ config.REQUIRE_PROFIT_TO_CLOSE = false then
          handleCloseBranch symbol config env st
        else if reduce_times < config.MAX_REDUCE_TIMES then
          if direction = Dir.sell then handleCloseBranch symbol config env st
          else handleReduceBranch symbol contracts config env st
        else handleCloseBranch symbol config env st
      | some new_conf =>
        if new_conf < current_conf then
          if reduce_times < config.MAX_REDUCE_TIMES then
            if direction = Dir.sell then handleCloseBranch symbol config env st
            else handleReduceBranch symbol contracts config env st
          else handleCloseBranch symbol config env st
        else .returns true st []

/-- Embeds the decision block of process_symbol (auto_selector.py lines
267-306): holding flags and unrealized figures from the held record, then
the open / add / close / reduce rule chain. -/
def decide_operation (posOpt : Option Position) (direction : Dir)
    (confidence : ℚ) (price : ℚ) (config : Config) : Option Op :=
  let contracts := (posOpt.map (fun p => p.contracts)).getD 0
  let holding := 0 < contracts
  let held_dir := posOpt.map (fun p => p.direction)
  let ep := (posOpt.map (fun p => p.price)).getD 0
  let entryTruthy := posOpt.isSome ∧ ep ≠ 0
  let pos_conf := (posOpt.map (fun p => p.confidence)).getD 0
  let add_times := (posOpt.map (fun p => p.add_times)).getD 0
  let reduce_times := (posOpt.map (fun p => p.reduce_times)).getD 0
  let unrealized_profit : ℚ :=
    if entryTruthy ∧ holding then
      if held_dir = some Dir.buy then (price - ep) * (contracts : ℚ)
      else if held_dir = some Dir.sell then (ep - price) * (contracts : ℚ)
      else 0
    else 0
  let invested := ep * (contracts : ℚ)
  let pnl_ratio : ℚ :=
    if entryTruthy ∧ holding ∧ 0 < invested then unrealized_profit / invested
    else 0
  if ¬holding ∧ config.OPEN_THRESHOLD ≤ confidence then some Op.openOp
  else if holding ∧ held_dir = some direction ∧ pos_conf < confidence ∧
      add_times < config.MAX_ADD_TIMES then some Op.addOp
  else if holding then
    if config.TAKE_PROFIT_VALUE ≤ unrealized_profit then some Op.closeOp
    else if pnl_ratio ≤ config.STOP_LOSS_RATIO then
      some (if reduce_times < config.MAX_REDUCE_TIMES then Op.reduceOp else Op.closeOp)
    else if confidence < config.OPEN_THRESHOLD then
      if 0 < unrealized_profit ∨ config.REQUIRE_PROFIT_TO_CLOSE = false then
        some Op.closeOp
      else
        some (if reduce_times < config.MAX_REDUCE_TIMES then Op.reduceOp else Op.closeOp)
    else none
  else none

/-- The leverage the allocation uses (order_executor.py lines 53-56):
the exchange-reported leverage for the direction, capped at
MAX_LEVERAGE_LIMIT. -/
def allocLeverage (direction : Dir) (cfg : Config) (inp : AllocInput) : ℚ :=
  pymin (if direction = Dir.buy then inp.levLong else inp.levShort)
    cfg.MAX_LEVERAGE_LIMIT

/-- max_possible_contracts of order_executor.py line 83:
int(allocated_capital / margin_per_contract). -/
def maxPossibleContracts (direction : Dir) (cfg : Config)
    (longCount shortCount : ℕ) (inp : AllocInput) (price : ℚ) : ℤ :=
  pyInt (allocatedCapital direction cfg inp.balance longCount shortCount /
    marginPerContract cfg price (allocLeverage direction cfg inp))

/-- The unclamped contract count of order_executor.py line 84:
int(budget / margin_per_contract). -/
def flooredBudgetContracts (direction : Dir) (confidence : ℚ) (cfg : Config)
    (longCount shortCount : ℕ) (inp : AllocInput) (price : ℚ) : ℤ :=
  pyInt (allocationBudget direction confidence cfg inp.balance longCount shortCount /
    marginPerContract cfg price (allocLeverage direction cfg inp))

/-- The clamp of order_executor.py lines 86-90: at least 1, at most the
unclamped count, max_possible_contracts and MAX_CONTRACTS_PER_ORDER. -/
def clampedContracts (direction : Dir) (confidence : ℚ) (cfg : Config)
    (longCount shortCount : ℕ) (inp : AllocInput) (price : ℚ) : ℤ :=
  pymax 1 (pymin (flooredBudgetContracts direction confidence cfg longCount shortCount inp price)
    (pymin (maxPossibleContracts direction cfg longCount shortCount inp price)
      cfg.MAX_CONTRACTS_PER_ORDER))

/-! ## Helper lemmas -/

theorem min_le_investment_ratio (cfg : Config) (c : ℚ) :
    cfg.MIN_SINGLE_POSITION_RATIO ≤ calculate_investment_ratio c cfg := by
  simp only [calculate_investment_ratio, pymax_eq_max, pymin_eq_min]
  exact le_max_left _ _

theorem investment_ratio_le_max (cfg : Config)
    (h : cfg.MIN_SINGLE_POSITION_RATIO ≤ cfg.MAX_SINGLE_POSITION_RATIO)
    (c : ℚ) :
    calculate_investment_ratio c cfg ≤ cfg.MAX_SINGLE_POSITION_RATIO := by
  simp only [calculate_investment_ratio, pymax_eq_max, pymin_eq_min]
  exact max_le h (min_le_right _ _)

theorem defaultConfig_min_nonneg : 0 ≤ defaultConfig.MIN_SINGLE_POSITION_RATIO := by
  norm_num [defaultConfig]

theorem defaultConfig_min_le_max :
    defaultConfig.MIN_SINGLE_POSITION_RATIO ≤ defaultConfig.MAX_SINGLE_POSITION_RATIO := by
  norm_num [defaultConfig]

/-! ## Claim C8 -/

/-- Claim C8 (confirmed): for every real confidence value the investment
ratio equals clamp(confidence/100 * MAX_SINGLE_POSITION_RATIO,
MIN_SINGLE_POSITION_RATIO, MAX_SINGLE_POSITION_RATIO); out-of-range
confidence is clamped, never rejected (the result always lies between the
two bounds); the ratio is monotone non-decreasing in confidence; it
equals MAX_SINGLE_POSITION_RATIO exactly at confidence 100 and
MIN_SINGLE_POSITION_RATIO at confidence 0. -/
theorem investment_ratio_spec (cfg : Config)
    (hmin0 : 0 ≤ cfg.MIN_SINGLE_POSITION_RATIO)
    (hminmax : cfg.MIN_SINGLE_POSITION_RATIO ≤ cfg.MAX_SINGLE_POSITION_RATIO) :
    (∀ c : ℚ, calculate_investment_ratio c cfg =
      max cfg.MIN_SINGLE_POSITION_RATIO
        (min (c / 100 * cfg.MAX_SINGLE_POSITION_RATIO)
          cfg.MAX_SINGLE_POSITION_RATIO)) ∧
    (∀ c : ℚ, cfg.MIN_SINGLE_POSITION_RATIO ≤ calculate_investment_ratio c cfg ∧
      calculate_investment_ratio c cfg ≤ cfg.MAX_SINGLE_POSITION_RATIO) ∧
    (∀ c₁ c₂ : ℚ, c₁ ≤ c₂ →
      calculate_investment_ratio c₁ cfg ≤ calculate_investment_ratio c₂ cfg) ∧
    calculate_investment_ratio 100 cfg = cfg.MAX_SINGLE_POSITION_RATIO ∧
    calculate_investment_ratio 0 cfg = cfg.MIN_SINGLE_POSITION_RATIO := by
  have hmax0 : 0 ≤ cfg.MAX_SINGLE_POSITION_RATIO := le_trans hmin0 hminmax
  refine ⟨?_, ?_, ?_, ?_, ?_⟩
  · intro c
    simp only [calculate_investment_ratio, pymax_eq_max, pymin_eq_min]
  · intro c
    exact ⟨min_le_investment_ratio cfg c, investment_ratio_le_max cfg hminmax c⟩
  · intro c₁ c₂ h
    simp only [calculate_investment_ratio, pymax_eq_max, pymin_eq_min]
    refine max_le_max le_rfl (min_le_min ?_ le_rfl)
    refine mul_le_mul_of_nonneg_right ?_ hmax0
    exact (div_le_div_iff_of_pos_right (by norm_num : (0:ℚ) < 100)).mpr h
  · simp only [calculate_investment_ratio, pymax_eq_max, pymin_eq_min]
    have h1 : (100 : ℚ) / 100 * cfg.MAX_SINGLE_POSITION_RATIO =
        cfg.MAX_SINGLE_POSITION_RATIO := by norm_num
    rw [h1, min_self, max_eq_right hminmax]
  · simp only [calculate_investment_ratio, pymax_eq_max, pymin_eq_min]
    have h1 : (0 : ℚ) / 100 * cfg.MAX_SINGLE_POSITION_RATIO = 0 := by norm_num
    rw [h1, min_eq_left hmax0, max_eq_left hmin0]

/-- Witness for investment_ratio_spec at the default configuration. -/
theorem investment_ratio_spec_witness :
    (0 ≤ defaultConfig.MIN_SINGLE_POSITION_RATIO) ∧
    (defaultConfig.MIN_SINGLE_POSITION_RATIO ≤
      defaultConfig.MAX_SINGLE_POSITION_RATIO) ∧
    calculate_investment_ratio 100 defaultConfig =
      defaultConfig.MAX_SINGLE_POSITION_RATIO :=
  ⟨defaultConfig_min_nonneg, defaultConfig_min_le_max,
    (investment_ratio_spec defaultConfig defaultConfig_min_nonneg
      defaultConfig_min_le_max).2.2.2.1⟩

/-! ## Claim C1 -/

theorem defaultConfig_max_le_one : defaultConfig.MAX_SINGLE_POSITION_RATIO ≤ 1 := by
  norm_num [defaultConfig]

/-- Claim C1 counterexample: at balance 1000, price 100, confidence 80
under the default configuration, the reserve the code subtracts for a
short allocation is (available/2)*(1+|STOP_LOSS_RATIO|) = 472.5, not the
claimed price*confidence*(1+|STOP_LOSS_RATIO|) = 8400; and with one long
and one short symbol selected, a long allocation uses half of the
buffer-adjusted balance (450), not the full buffer-adjusted balance
(900). -/
theorem short_reserve_claim_counterexample :
    reservedAmountShort defaultConfig 1000 = 945/2 ∧
    (100 : ℚ) * 80 * (1 + |defaultConfig.STOP_LOSS_RATIO|) = 8400 ∧
    (945/2 : ℚ) ≠ 8400 ∧
    allocatedCapital Dir.buy defaultConfig 1000 1 1 = 450 ∧
    availableAfterBuffer defaultConfig 1000 = 900 ∧
    (450 : ℚ) ≠ 900 := by
  refine ⟨?_, ?_, by norm_num, ?_, ?_, by norm_num⟩ <;>
    norm_num [reservedAmountShort, allocatedCapital, availableAfterBuffer,
      defaultConfig, abs_div]

/-- Claim C1 (corrected): the reserve the Capital Allocator subtracts for
a short allocation equals (balance*(1-CAPITAL_BUFFER_RATIO)/2) *
(1+|STOP_LOSS_RATIO|) - half the buffer-adjusted balance, independent of
price and confidence; with at least one short symbol selected the short
budget never exceeds the buffer-adjusted balance minus that reserve
(clamped at zero); and a long allocation uses the longCount/total share
of the buffer-adjusted balance, not all of it. -/
theorem short_reserve_amended (cfg : Config) (balance confidence : ℚ)
    (longCount shortCount : ℕ)
    (hmin0 : 0 ≤ cfg.MIN_SINGLE_POSITION_RATIO)
    (hminmax : cfg.MIN_SINGLE_POSITION_RATIO ≤ cfg.MAX_SINGLE_POSITION_RATIO)
    (hmax1 : cfg.MAX_SINGLE_POSITION_RATIO ≤ 1)
    (hsc : 0 < shortCount) :
    reservedAmountShort cfg balance =
      availableAfterBuffer cfg balance / 2 * (1 + |cfg.STOP_LOSS_RATIO|) ∧
    allocationBudget Dir.sell confidence cfg balance longCount shortCount ≤
      pymax 0 (availableAfterBuffer cfg balance - reservedAmountShort cfg balance) ∧
    allocatedCapital Dir.buy cfg balance longCount shortCount =
      availableAfterBuffer cfg balance *
        ((longCount : ℚ) / ((longCount : ℚ) + (shortCount : ℚ))) := by
  have htot : longCount + shortCount ≠ 0 := by omega
  refine ⟨rfl, ?_, ?_⟩
  · have hr0 : 0 ≤ calculate_investment_ratio confidence cfg :=
      le_trans hmin0 (min_le_investment_ratio cfg confidence)
    have hr1 : calculate_investment_ratio confidence cfg ≤ 1 :=
      le_trans (investment_ratio_le_max cfg hminmax confidence) hmax1
    have hF0 : 0 ≤ pymax 0 (availableAfterBuffer cfg balance -
        reservedAmountShort cfg balance) := by
      rw [pymax_eq_max]; exact le_max_left _ _
    have hq0 : (0 : ℚ) ≤ (shortCount : ℚ) / ((longCount : ℚ) + (shortCount : ℚ)) :=
      div_nonneg (Nat.cast_nonneg _) (by positivity)
    have hq1 : (shortCount : ℚ) / ((longCount : ℚ) + (shortCount : ℚ)) ≤ 1 := by
      apply div_le_one_of_le₀
      · exact le_add_of_nonneg_left (Nat.cast_nonneg _)
      · positivity
    simp only [allocationBudget, allocatedCapital, if_neg htot,
      if_neg (by decide : ¬(Dir.sell = Dir.buy))]
    calc pymax 0 (availableAfterBuffer cfg balance - reservedAmountShort cfg balance) *
          ((shortCount : ℚ) / ((longCount : ℚ) + (shortCount : ℚ))) *
          calculate_investment_ratio confidence cfg
        ≤ pymax 0 (availableAfterBuffer cfg balance - reservedAmountShort cfg balance) *
          ((shortCount : ℚ) / ((longCount : ℚ) + (shortCount : ℚ))) :=
          mul_le_of_le_one_right (mul_nonneg hF0 hq0) hr1
      _ ≤ pymax 0 (availableAfterBuffer cfg balance - reservedAmountShort cfg balance) :=
          mul_le_of_le_one_right hF0 hq1
  · simp [allocatedCapital, if_neg htot]
    intro h1 h2
    exact absurd h2 (Nat.pos_iff_ne_zero.mp hsc)

/-- Witness for short_reserve_amended at the default configuration,
balance 1000, confidence 80, no long and one short symbol selected. -/
theorem short_reserve_amended_witness :
    (0 ≤ defaultConfig.MIN_SINGLE_POSITION_RATIO) ∧
    (defaultConfig.MAX_SINGLE_POSITION_RATIO ≤ 1) ∧ (0 < 1) ∧
    allocationBudget Dir.sell 80 defaultConfig 1000 0 1 ≤
      pymax 0 (availableAfterBuffer defaultConfig 1000 -
        reservedAmountShort defaultConfig 1000) :=
  ⟨defaultConfig_min_nonneg, defaultConfig_max_le_one, Nat.one_pos,
    (short_reserve_amended defaultConfig 1000 80 0 1 defaultConfig_min_nonneg
      defaultConfig_min_le_max defaultConfig_max_le_one Nat.one_pos).2.1⟩

/-! ## Claim C2 -/

/-- Claim C2 counterexample: with balance 10, price 100, leverage 10 under
the default configuration, max_possible_contracts is 0 (< 1: the
allocated capital of 9 cannot cover the 11 margin of a single contract),
yet the allocation does not fail: it returns 1 contract. There is no
InsufficientCapital outcome in the code. -/
theorem insufficient_capital_claim_counterexample :
    maxPossibleContracts Dir.buy defaultConfig 0 0 ⟨some 100, 10, 10, 10⟩ 100 < 1 ∧
    allocate_capital_for_position Dir.buy 80 defaultConfig 0 0
      ⟨some 100, 10, 10, 10⟩ = .ok (1, 100, 10) := by
  constructor
  · norm_num [maxPossibleContracts, allocatedCapital, marginPerContract,
      allocLeverage, availableAfterBuffer, defaultConfig, pyInt, pymin]
  · norm_num [allocate_capital_for_position, allocatedCapital,
      marginPerContract, availableAfterBuffer, calculate_investment_ratio,
      defaultConfig, pyInt, pymin, pymax]

/-- Claim C2 (corrected): for a valid price the returned contract count
always equals floor(budget / marginPerContract) clamped to
[1, maxPossibleContracts, MAX_CONTRACTS_PER_ORDER]; but when
maxPossibleContracts < 1 the allocation does not fail with
InsufficientCapital - it still returns 1 contract. The count is at
least 1 in every case, and respects the maxPossibleContracts and
MAX_CONTRACTS_PER_ORDER caps whenever those caps are at least 1. -/
theorem allocate_contracts_clamp_amended (direction : Dir) (confidence : ℚ)
    (cfg : Config) (longCount shortCount : ℕ) (inp : AllocInput) (price : ℚ)
    (hp : inp.price = some price) (hpos : 0 < price)
    (_hlev : 0 < allocLeverage direction cfg inp) :
    allocate_capital_for_position direction confidence cfg longCount shortCount inp =
      .ok (clampedContracts direction confidence cfg longCount shortCount inp price,
        price, allocLeverage direction cfg inp) ∧
    1 ≤ clampedContracts direction confidence cfg longCount shortCount inp price ∧
    (maxPossibleContracts direction cfg longCount shortCount inp price < 1 →
      clampedContracts direction confidence cfg longCount shortCount inp price = 1) ∧
    (1 ≤ maxPossibleContracts direction cfg longCount shortCount inp price →
      1 ≤ cfg.MAX_CONTRACTS_PER_ORDER →
      clampedContracts direction confidence cfg longCount shortCount inp price ≤
        maxPossibleContracts direction cfg longCount shortCount inp price ∧
      clampedContracts direction confidence cfg longCount shortCount inp price ≤
        cfg.MAX_CONTRACTS_PER_ORDER) := by
  refine ⟨?_, ?_, ?_, ?_⟩
  · simp only [allocate_capital_for_position, hp, if_neg (not_le.mpr hpos),
      clampedContracts, flooredBudgetContracts, maxPossibleContracts,
      allocLeverage, allocationBudget]
  all_goals
    simp only [clampedContracts, pymax_eq_max, pymin_eq_min]
  all_goals
    generalize flooredBudgetContracts direction confidence cfg longCount shortCount inp price = f
  all_goals
    generalize maxPossibleContracts direction cfg longCount shortCount inp price = mp
  all_goals omega

/-- Witness for allocate_contracts_clamp_amended at the counterexample
input, where max_possible_contracts is 0. -/
theorem allocate_contracts_clamp_amended_witness :
    (AllocInput.mk (some 100) 10 10 10).price = some 100 ∧ ((0:ℚ) < 100) ∧
    (0 < allocLeverage Dir.buy defaultConfig ⟨some 100, 10, 10, 10⟩) ∧
    allocate_capital_for_position Dir.buy 80 defaultConfig 0 0
      ⟨some 100, 10, 10, 10⟩ =
      .ok (clampedContracts Dir.buy 80 defaultConfig 0 0 ⟨some 100, 10, 10, 10⟩ 100,
        100, allocLeverage Dir.buy defaultConfig ⟨some 100, 10, 10, 10⟩) :=
  ⟨rfl, by decide, by decide,
    (allocate_contracts_clamp_amended Dir.buy 80 defaultConfig 0 0
      ⟨some 100, 10, 10, 10⟩ 100 rfl (by decide) (by decide)).1⟩

/-! ## Claim C3 -/

/-- A cached snapshot record: 3 contracts held. -/
def posCacheC3 : Position :=
  { direction := Dir.buy, contracts := 3, price := 100, confidence := 50,
    add_times := 0, reduce_times := 0 }

/-- The committed-table record for the same symbol: 10 contracts held. -/
def posDbC3 : Position :=
  { direction := Dir.buy, contracts := 10, price := 100, confidence := 50,
    add_times := 0, reduce_times := 0 }

/-- Cached dict disagreeing with the committed table. -/
def cacheMapC3 : PosMap :=
  fun s => if s = "BTC-USDT-SWAP" then some posCacheC3 else none

/-- Committed table of the counterexample. -/
def dbMapC3 : PosMap :=
  fun s => if s = "BTC-USDT-SWAP" then some posDbC3 else none

/-- Store state whose cache (loaded at time 0) disagrees with the table. -/
def storeC3 : StoreState := { db := dbMapC3, cache := some (cacheMapC3, 0) }

/-- Claim C3 (code bug): no upsert ever operates on any record to
completion. With a fresh cache (loaded at time 0, upsert at time 2)
holding 3 contracts while the committed table holds 10,
update_position_state mutates the shared cached dict in place and then
blocks forever re-acquiring the non-reentrant _lock inside
_save_position_state (state_manager.py :185 -> :135): the committed
table keeps its 10-contract record untouched and the call never returns.
The pre-block mutation it does perform is computed from the cached
snapshot (3+2 = 5 contracts), not from the committed record (10+2 = 12).
update_position_after_reduce blocks the same way (:201 -> :135). -/
theorem upsert_blocks_never_commits :
    update_position_state "BTC-USDT-SWAP" Dir.buy 2 101 60 none none true 2
      storeC3 =
      StoreOutcome.blocks
        { db := dbMapC3,
          cache := some (applyUpsert "BTC-USDT-SWAP" Dir.buy 2 101 60 none
            none true cacheMapC3, 0) } ∧
    (update_position_state "BTC-USDT-SWAP" Dir.buy 2 101 60 none none true 2
      storeC3).isBlocked = true ∧
    (update_position_state "BTC-USDT-SWAP" Dir.buy 2 101 60 none none true 2
      storeC3).state.db "BTC-USDT-SWAP" = some posDbC3 ∧
    ((applyUpsert "BTC-USDT-SWAP" Dir.buy 2 101 60 none none true cacheMapC3)
      "BTC-USDT-SWAP").map Position.contracts = some 5 ∧
    ((applyUpsert "BTC-USDT-SWAP" Dir.buy 2 101 60 none none true dbMapC3)
      "BTC-USDT-SWAP").map Position.contracts = some 12 ∧
    (5 : ℤ) ≠ 12 ∧
    (update_position_after_reduce "BTC-USDT-SWAP" 2 none 2 storeC3).isBlocked =
      true := by
  exact ⟨rfl, rfl, by decide, by decide, by decide, by decide, rfl⟩

/-! ## Claim C4 -/

/-- A held long position of one contract, entered at 100. -/
def posC4 : Position :=
  { direction := Dir.buy, contracts := 1, price := 100, confidence := 50,
    add_times := 0, reduce_times := 0 }

/-- Executor state before the failing close: reserve at 5, the position
held in both the shared dict and the committed table. -/
def stC4 : ExecState :=
  { dict := fun s => if s = "ETH-USDT-SWAP" then some posC4 else none,
    table := fun s => if s = "ETH-USDT-SWAP" then some posC4 else none,
    reserved := 5 }

/-- Claim C4 (code bug): the sweep transition of process_profit_transfer
by itself does match the claim - a reserve of 4.9 below the threshold 5
triggers no transfer; 5.1 triggers one and resets to 0 only on confirmed
success; a failed transfer leaves 5.1 unchanged. But the integrated close
path can never reach it: closing the profitable position below (whose
realized profit of 0.2 would lift the reserve from 5 to 5.1) submits and
fills the close order and then blocks forever at order_executor.py
line 261, where state_manager.remove_position self-deadlocks on the
non-reentrant _lock (state_manager.py :213 -> :135), before add_profit
(line 310) and the sweep call (line 313): the reserve stays at 5, the
committed table keeps the position, and the 5.1 threshold crossing never
happens. Even if execution reached line 313, the call
process_profit_transfer(total_reserved) would raise TypeError, since
funding_manager.py line 59 declares the function with no parameters. -/
theorem profit_sweep_threshold_and_failing_close :
    process_profit_transfer 5 (49/10) true = (false, 49/10) ∧
    process_profit_transfer 5 (51/10) true = (true, 0) ∧
    process_profit_transfer 5 (51/10) false = (false, 51/10) ∧
    (try_close_position "ETH-USDT-SWAP" defaultConfig ⟨true, some (501/5)⟩
      stC4).isBlocked = true ∧
    (try_close_position "ETH-USDT-SWAP" defaultConfig ⟨true, some (501/5)⟩
      stC4).stateAfter.reserved = 5 ∧
    (try_close_position "ETH-USDT-SWAP" defaultConfig ⟨true, some (501/5)⟩
      stC4).stateAfter.table "ETH-USDT-SWAP" = some posC4 ∧
    (try_close_position "ETH-USDT-SWAP" defaultConfig ⟨true, some (501/5)⟩
      stC4).orders = [⟨"ETH-USDT-SWAP", Dir.sell, 1, true⟩] := by
  refine ⟨?_, ?_, ?_, rfl, rfl, by decide, by decide⟩ <;>
    norm_num [process_profit_transfer]

/-! ## Claim C5 -/

theorem try_close_position_orders (symbol : String) (cfg : Config)
    (env : Env) (st : ExecState) (pos : Position)
    (hpos : st.dict symbol = some pos) :
    (try_close_position symbol cfg env st).orders =
      [⟨symbol, revDir pos.direction, pos.contracts, true⟩] := by
  rcases env with ⟨sendOk, priceOpt⟩
  cases sendOk <;>
    simp [try_close_position, hpos, get_order_params, ExecOutcome.orders]

theorem handleCloseBranch_orders (symbol : String) (cfg : Config)
    (env : Env) (st : ExecState) :
    (handleCloseBranch symbol cfg env st).orders =
      (try_close_position symbol cfg env st).orders := by
  unfold handleCloseBranch
  cases h : try_close_position symbol cfg env st with
  | returns val st2 ords => cases val <;> simp [ExecOutcome.orders]
  | blocks st2 ords => simp [ExecOutcome.orders]

theorem handle_removed_orders_sell (symbol : String) (pos : Position)
    (latestConf : Option ℚ) (cfg : Config) (env : Env) (st : ExecState)
    (hdir : pos.direction = Dir.sell) :
    (handle_removed_position symbol pos latestConf cfg env st).orders = [] ∨
    (handle_removed_position symbol pos latestConf cfg env st).orders =
      (try_close_position symbol cfg env st).orders := by
  unfold handle_removed_position
  rcases env with ⟨sendOk, priceOpt⟩
  rcases priceOpt with _ | p
  · left; rfl
  · rcases latestConf with _ | nc <;>
      simp only [hdir] <;>
      split_ifs <;>
      first
      | contradiction
      | exact Or.inl rfl
      | exact Or.inr (handleCloseBranch_orders symbol cfg ⟨sendOk, some p⟩ st)

/-- Claim C5 (confirmed): for a short position, the signal-driven reduce
path (try_reduce_position, the dispatch target whenever a rule selects
reduce) is literally the full-close path, and every order submitted for
the symbol by either try_reduce_position or the position-sync
handle_removed_position - in the missing-from-selection and
confidence-drop branches alike - is for the full held contract count: a
reduce-only partial exit is never submitted for a short position. In
particular, even when the selector rule decide_operation picks reduce for
the held short, the dispatched operation performs the full close. -/
theorem short_never_partially_reduced (symbol : String) (cfg : Config)
    (env : Env) (st : ExecState) (pos : Position)
    (hpos : st.dict symbol = some pos) (hdir : pos.direction = Dir.sell) :
    try_reduce_position symbol cfg env st = try_close_position symbol cfg env st ∧
    (∀ o ∈ (try_reduce_position symbol cfg env st).orders,
      o.contracts = pos.contracts ∧ o.reduceOnly = true) ∧
    (∀ latestConf : Option ℚ,
      ∀ o ∈ (handle_removed_position symbol pos latestConf cfg env st).orders,
        o.contracts = pos.contracts ∧ o.reduceOnly = true) ∧
    (∀ (d : Dir) (conf price : ℚ),
      decide_operation (some pos) d conf price cfg = some Op.reduceOp →
      try_reduce_position symbol cfg env st = try_close_position symbol cfg env st) := by
  have hred : try_reduce_position symbol cfg env st =
      try_close_position symbol cfg env st := by
    simp [try_reduce_position, hpos, hdir]
  have horders := try_close_position_orders symbol cfg env st pos hpos
  refine ⟨hred, ?_, ?_, fun d conf price _ => hred⟩
  · rw [hred, horders]
    intro o ho
    simp only [List.mem_singleton] at ho
    subst ho
    exact ⟨rfl, rfl⟩
  · intro latestConf o ho
    rcases handle_removed_orders_sell symbol pos latestConf cfg env st hdir with
      h | h
    · rw [h] at ho
      simp at ho
    · rw [h, horders] at ho
      simp only [List.mem_singleton] at ho
      subst ho
      exact ⟨rfl, rfl⟩

/-- A short position of five contracts. -/
def posC5 : Position :=
  { direction := Dir.sell, contracts := 5, price := 100, confidence := 50,
    add_times := 0, reduce_times := 0 }

/-- Executor state holding the short position. -/
def stC5 : ExecState :=
  { dict := fun s => if s = "XRP-USDT-SWAP" then some posC5 else none,
    table := fun s => if s = "XRP-USDT-SWAP" then some posC5 else none,
    reserved := 0 }

/-- Witness for short_never_partially_reduced on the concrete short
position. -/
theorem short_never_partially_reduced_witness :
    stC5.dict "XRP-USDT-SWAP" = some posC5 ∧
    posC5.direction = Dir.sell ∧
    try_reduce_position "XRP-USDT-SWAP" defaultConfig ⟨true, some 90⟩ stC5 =
      try_close_position "XRP-USDT-SWAP" defaultConfig ⟨true, some 90⟩ stC5 :=
  ⟨rfl, rfl,
    (short_never_partially_reduced "XRP-USDT-SWAP" defaultConfig
      ⟨true, some 90⟩ stC5 posC5 rfl rfl).1⟩

/-! ## Claims C6 and C7 -/

theorem sendOrderGo_all_retry (n : ℕ) :
    ∀ (trace : List Attempt) (w : ℕ),
      (∀ b ∈ trace, attemptOutcome b = .retryNext) →
      (sendOrderGo trace n w).result = none ∧
      (sendOrderGo trace n w).calls = n ∧
      (sendOrderGo trace n w).sleeps.length = n := by
  induction n with
  | zero => exact fun trace w h => ⟨rfl, rfl, rfl⟩
  | succ n ih =>
    intro trace w h
    have ha : attemptOutcome (trace.headD ⟨.malformed, none⟩) = .retryNext := by
      rcases trace with _ | ⟨a, rest⟩
      · rfl
      · exact h a (List.mem_cons_self a rest)
    have htail : ∀ b ∈ trace.tail, attemptOutcome b = .retryNext :=
      fun b hb => h b (List.mem_of_mem_tail hb)
    obtain ⟨h1, h2, h3⟩ := ih trace.tail (pymin (w * 2) 8) htail
    simp only [sendOrderGo, ha]
    exact ⟨h1, by simp [h2], by simp [h3]⟩

theorem doubling_cap (k : ℕ) : min (min (2 ^ k) 8 * 2) 8 = min (2 ^ (k + 1)) 8 := by
  rcases le_total (2 ^ k) 8 with h | h
  · rw [min_eq_left h, pow_succ]
  · have h16 : (8 : ℕ) ≤ 2 ^ (k + 1) := by
      calc (8 : ℕ) ≤ 2 ^ k := h
        _ ≤ 2 ^ (k + 1) := Nat.pow_le_pow_right (by norm_num) (by omega)
    rw [min_eq_right h, min_eq_right h16]
    omega

theorem sendOrderGo_all_retry_sleeps (n : ℕ) :
    ∀ (trace : List Attempt) (k : ℕ),
      (∀ b ∈ trace, attemptOutcome b = .retryNext) →
      (sendOrderGo trace n (min (2 ^ k) 8)).sleeps =
        (List.range n).map (fun i => min (2 ^ (k + i)) 8) := by
  induction n with
  | zero => exact fun trace k h => rfl
  | succ n ih =>
    intro trace k h
    have ha : attemptOutcome (trace.headD ⟨.malformed, none⟩) = .retryNext := by
      rcases trace with _ | ⟨a, rest⟩
      · rfl
      · exact h a (List.mem_cons_self a rest)
    have htail : ∀ b ∈ trace.tail, attemptOutcome b = .retryNext :=
      fun b hb => h b (List.mem_of_mem_tail hb)
    have hd : pymin (min (2 ^ k) 8 * 2) 8 = min (2 ^ (k + 1)) 8 := by
      rw [pymin_eq_min]; exact doubling_cap k
    simp only [sendOrderGo, ha, hd, ih trace.tail (k + 1) htail]
    rw [List.range_succ_eq_map, List.map_cons, List.map_map]
    congr 1
    refine List.map_congr_left fun a ha => ?_
    simp only [Function.comp_apply]
    have hka : k + 1 + a = k + (a + 1) := by omega
    rw [hka]

/-- Claim C7 (confirmed): when every gateway response is malformed or
unfillable (every attempt decides to retry), send_order makes exactly
MAX_RETRY_ON_FAILURE placement attempts, the backoff delays are
min(2^i, 8) - starting at 1 and doubling up to the cap of 8 - and the
caller receives the retry-exhausted outcome (None result); the submission
protocol passes any position-store state through untouched, as its body
never references the store. -/
theorem send_order_retry_exhaustion (cfg : Config) (trace : List Attempt)
    (hmal : ∀ b ∈ trace, attemptOutcome b = .retryNext) :
    (send_order cfg trace).result = none ∧
    (send_order cfg trace).calls = cfg.MAX_RETRY_ON_FAILURE ∧
    (send_order cfg trace).sleeps =
      (List.range cfg.MAX_RETRY_ON_FAILURE).map (fun i => min (2 ^ i) 8) ∧
    (∀ st : StoreState, sendOrderWithStore cfg trace st = (send_order cfg trace, st)) := by
  have h0 : (1 : ℕ) = min (2 ^ 0) 8 := by norm_num
  refine ⟨(sendOrderGo_all_retry _ trace 1 hmal).1,
    (sendOrderGo_all_retry _ trace 1 hmal).2.1, ?_, fun st => rfl⟩
  show (sendOrderGo trace cfg.MAX_RETRY_ON_FAILURE 1).sleeps = _
  rw [h0, sendOrderGo_all_retry_sleeps cfg.MAX_RETRY_ON_FAILURE trace 0 hmal]
  simp

/-- Witness for send_order_retry_exhaustion: three malformed responses
under the default three-attempt budget. -/
theorem send_order_retry_exhaustion_witness :
    (∀ b ∈ List.replicate 3 (Attempt.mk PlaceResp.malformed none),
      attemptOutcome b = AttemptOutcome.retryNext) ∧
    (send_order defaultConfig
      (List.replicate 3 (Attempt.mk PlaceResp.malformed none))).calls =
      defaultConfig.MAX_RETRY_ON_FAILURE :=
  ⟨by decide,
    (send_order_retry_exhaustion defaultConfig
      (List.replicate 3 (Attempt.mk PlaceResp.malformed none)) (by decide)).2.1⟩

/-- A gateway response carrying the invalid-signature code 50113. -/
def authResp : Attempt := ⟨.ok { code := "50113", data := [] }, none⟩

/-- A gateway response whose sMsg reports insufficient USDT margin. -/
def insuffResp : Attempt :=
  ⟨.ok { code := "1", data := [⟨none, "Insufficient USDT margin"⟩] }, none⟩

/-- Claim C6 counterexample: the invalid-signature response, the
insufficient-margin response and full retry exhaustion on malformed
responses all return the very same caller-visible value, None: the
outcomes are not distinguishable per the claimed OrderResult contract. -/
theorem nonretryable_indistinguishable_counterexample :
    (send_order defaultConfig [authResp]).result = none ∧
    (send_order defaultConfig [insuffResp]).result = none ∧
    (send_order defaultConfig
      (List.replicate 3 (Attempt.mk PlaceResp.malformed none))).result = none ∧
    (send_order defaultConfig [authResp]).result =
      (send_order defaultConfig
        (List.replicate 3 (Attempt.mk PlaceResp.malformed none))).result ∧
    (send_order defaultConfig [insuffResp]).result =
      (send_order defaultConfig
        (List.replicate 3 (Attempt.mk PlaceResp.malformed none))).result := by
  decide

/-- Claim C6 (corrected): an invalid-signature (code 50113) response does
return a fatal outcome immediately with a single placement call, and an
insufficient-margin response likewise aborts at once with no further
attempts; but these outcomes are not distinguishable by the caller from
retry exhaustion - send_order returns the same None sentinel for all
three, with no filled/retryExhausted/fatal result type. -/
theorem send_order_nonretryable_amended (cfg : Config) (a : Attempt)
    (rest : List Attempt) (hn : 1 ≤ cfg.MAX_RETRY_ON_FAILURE)
    (hout : attemptOutcome a = .fatalAuth ∨ attemptOutcome a = .insufficientMargin) :
    (send_order cfg (a :: rest)).result = none ∧
    (send_order cfg (a :: rest)).calls = 1 ∧
    (∀ trace2 : List Attempt, (∀ b ∈ trace2, attemptOutcome b = .retryNext) →
      (send_order cfg (a :: rest)).result = (send_order cfg trace2).result) := by
  obtain ⟨n, hn'⟩ : ∃ n, cfg.MAX_RETRY_ON_FAILURE = n + 1 :=
    ⟨cfg.MAX_RETRY_ON_FAILURE - 1, by omega⟩
  have hhead : (a :: rest).headD ⟨.malformed, none⟩ = a := rfl
  have hmain : sendOrderGo (a :: rest) (n + 1) 1 = ⟨none, 1, []⟩ := by
    rcases hout with h | h <;> simp only [sendOrderGo, hhead, h]
  have hres : (send_order cfg (a :: rest)).result = none := by
    unfold send_order; rw [hn', hmain]
  have hcalls : (send_order cfg (a :: rest)).calls = 1 := by
    unfold send_order; rw [hn', hmain]
  refine ⟨hres, hcalls, fun trace2 h2 => ?_⟩
  rw [hres]
  exact ((sendOrderGo_all_retry cfg.MAX_RETRY_ON_FAILURE trace2 1 h2).1).symm

/-- Witness for send_order_nonretryable_amended on the concrete
invalid-signature response. -/
theorem send_order_nonretryable_amended_witness :
    (1 ≤ defaultConfig.MAX_RETRY_ON_FAILURE) ∧
    (attemptOutcome authResp = AttemptOutcome.fatalAuth ∨
      attemptOutcome authResp = AttemptOutcome.insufficientMargin) ∧
    (send_order defaultConfig [authResp]).calls = 1 :=
  ⟨by decide, Or.inl (by decide),
    (send_order_nonretryable_amended defaultConfig authResp [] (by decide)
      (Or.inl (by decide))).2.1⟩

/-! ## Claims C9 and C10 -/

theorem halfQty_pos (c : ℤ) : 1 ≤ halfQty c := by
  rw [halfQty, pymax_eq_max]
  exact le_max_left 1 _

theorem applyReduce_lookup (symbol : String) (d : ℤ) (newRT : Option ℕ)
    (m : PosMap) (pos : Position) (h : m symbol = some pos) :
    applyReduce symbol d newRT m symbol =
      (if pos.contracts - d ≤ 0 then none
       else some { pos with
         contracts := pos.contracts - d,
         reduce_times := newRT.getD pos.reduce_times }) := by
  simp only [applyReduce, h]
  split_ifs <;> simp

theorem applyReduce_lookup_none (symbol : String) (d : ℤ) (newRT : Option ℕ)
    (m : PosMap) (h : m symbol = none) :
    applyReduce symbol d newRT m = m := by
  simp only [applyReduce, h]

theorem try_reduce_long_blocks (symbol : String) (cfg : Config) (env : Env)
    (st : ExecState) (pos : Position)
    (hpos : st.dict symbol = some pos) (hdir : pos.direction = Dir.buy)
    (hsend : env.sendOk = true) :
    try_reduce_position symbol cfg env st =
      .blocks { st with
          dict := applyReduce symbol (halfQty pos.contracts) none st.dict }
        [⟨symbol, Dir.sell, halfQty pos.contracts, true⟩] := by
  rcases env with ⟨sendOk, priceOpt⟩
  obtain rfl : sendOk = true := hsend
  simp [try_reduce_position, hpos, hdir, get_order_params, revDir]

theorem handle_reduce_branch_blocks (symbol : String) (cfg : Config)
    (env : Env) (st : ExecState) (pos : Position) (p : ℚ)
    (hpos : st.dict symbol = some pos) (hdir : pos.direction = Dir.buy)
    (hsend : env.sendOk = true) (hprice : env.price = some p) (hp0 : p ≠ 0)
    (hnoprofit : ¬(0 < p - pos.price))
    (hreq : cfg.REQUIRE_PROFIT_TO_CLOSE = true)
    (hrt : pos.reduce_times < cfg.MAX_REDUCE_TIMES) :
    handle_removed_position symbol pos none cfg env st =
      .blocks { st with
          dict := applyReduce symbol (halfQty pos.contracts) none st.dict }
        [⟨symbol, Dir.sell, halfQty pos.contracts, true⟩] := by
  have hred := try_reduce_long_blocks symbol cfg env st pos hpos hdir hsend
  simp only [handle_removed_position, hprice, hdir, hreq, handleReduceBranch,
    hred]
  rw [if_neg hp0, if_neg (by simpa using hnoprofit), if_pos hrt,
    if_neg (by decide : ¬(Dir.buy = Dir.sell))]

/-- A long position of two contracts entered at 100. -/
def posC9 : Position :=
  { direction := Dir.buy, contracts := 2, price := 100, confidence := 50,
    add_times := 0, reduce_times := 0 }

/-- Executor state holding that long position in the shared dict and the
committed table. -/
def stC9 : ExecState :=
  { dict := fun s => if s = "DOGE-USDT-SWAP" then some posC9 else none,
    table := fun s => if s = "DOGE-USDT-SWAP" then some posC9 else none,
    reserved := 0 }

theorem no_profit_at_entry : ¬((0 : ℚ) < 100 - 100) := by norm_num

/-- The record left in the shared dict after the single pre-block
decrement of the two-contract position: one contract, counters intact. -/
def posC9reduced : Position :=
  { direction := Dir.buy, contracts := 1, price := 100, confidence := 50,
    add_times := 0, reduce_times := 0 }

/-- Claim C9 counterexample: the two-contract long position - which the
claim says is removed from the store after being decremented twice by
max(1, floor(2/2)) = 1 - is NOT removed: the sync pass submits the
one-contract reduce-only order and then blocks forever inside the first
update_position_after_reduce; the committed table still holds the
two-contract record, the shared dict was decremented exactly once (to one
contract, not zero), and the call never returns, so the second decrement
of order_executor.py line 697 never runs. -/
theorem sync_reduce_double_decrement_counterexample :
    posC9.contracts ≤ 2 * halfQty posC9.contracts ∧
    (handle_removed_position "DOGE-USDT-SWAP" posC9 none defaultConfig
      ⟨true, some 100⟩ stC9).isBlocked = true ∧
    (handle_removed_position "DOGE-USDT-SWAP" posC9 none defaultConfig
      ⟨true, some 100⟩ stC9).stateAfter.table "DOGE-USDT-SWAP" = some posC9 ∧
    (handle_removed_position "DOGE-USDT-SWAP" posC9 none defaultConfig
      ⟨true, some 100⟩ stC9).stateAfter.dict "DOGE-USDT-SWAP" =
      some posC9reduced ∧
    (handle_removed_position "DOGE-USDT-SWAP" posC9 none defaultConfig
      ⟨true, some 100⟩ stC9).orders =
      [⟨"DOGE-USDT-SWAP", Dir.sell, 1, true⟩] := by
  have h := handle_reduce_branch_blocks "DOGE-USDT-SWAP" defaultConfig
    ⟨true, some 100⟩ stC9 posC9 100 rfl rfl rfl rfl (by decide)
    no_profit_at_entry rfl (by decide)
  rw [h]
  exact ⟨by decide, rfl, rfl, by decide, by decide⟩

/-- Claim C9 (corrected): in the position-sync path the long-position
reduce branch never succeeds, and the stored contract count is never
decremented twice. The branch submits a single reduce-only order for
d = max(1, floor(contracts/2)) contracts and then blocks forever inside
the first update_position_after_reduce (order_executor.py line 534,
hanging at state_manager.py :201 -> :135): the shared dict is decremented
once by d, the committed table is never changed, try_reduce_position
never returns success, and the caller's second decrement at
order_executor.py line 697 is unreachable - no position is removed from
the store. -/
theorem sync_reduce_single_decrement_then_blocks (symbol : String)
    (cfg : Config) (env : Env) (st : ExecState) (pos : Position) (p : ℚ)
    (hpos : st.dict symbol = some pos) (hdir : pos.direction = Dir.buy)
    (hsend : env.sendOk = true) (hprice : env.price = some p) (hp0 : p ≠ 0)
    (hnoprofit : ¬(0 < p - pos.price))
    (hreq : cfg.REQUIRE_PROFIT_TO_CLOSE = true)
    (hrt : pos.reduce_times < cfg.MAX_REDUCE_TIMES) :
    (handle_removed_position symbol pos none cfg env st).isBlocked = true ∧
    (handle_removed_position symbol pos none cfg env st).orders =
      [⟨symbol, Dir.sell, halfQty pos.contracts, true⟩] ∧
    (handle_removed_position symbol pos none cfg env st).stateAfter.table =
      st.table ∧
    ((handle_removed_position symbol pos none cfg env st).stateAfter.dict
        symbol =
      if pos.contracts - halfQty pos.contracts ≤ 0 then none
      else some { pos with
        contracts := pos.contracts - halfQty pos.contracts }) := by
  have h := handle_reduce_branch_blocks symbol cfg env st pos p hpos hdir
    hsend hprice hp0 hnoprofit hreq hrt
  rw [h]
  refine ⟨rfl, rfl, rfl, ?_⟩
  have hA := applyReduce_lookup symbol (halfQty pos.contracts) none st.dict
    pos hpos
  simpa using hA

/-- Witness for sync_reduce_single_decrement_then_blocks: the
two-contract long at its entry price; the sync pass hangs after
submitting the one-contract reduce order. -/
theorem sync_reduce_single_decrement_then_blocks_witness :
    stC9.dict "DOGE-USDT-SWAP" = some posC9 ∧
    posC9.direction = Dir.buy ∧
    (handle_removed_position "DOGE-USDT-SWAP" posC9 none defaultConfig
      ⟨true, some 100⟩ stC9).isBlocked = true :=
  ⟨rfl, rfl,
    (sync_reduce_single_decrement_then_blocks "DOGE-USDT-SWAP" defaultConfig
      ⟨true, some 100⟩ stC9 posC9 100 rfl rfl rfl rfl (by decide)
      no_profit_at_entry rfl (by decide)).1⟩

/-- A long position of five contracts with one reduce already counted. -/
def posC10 : Position :=
  { direction := Dir.buy, contracts := 5, price := 100, confidence := 50,
    add_times := 0, reduce_times := 1 }

/-- Executor state holding that long position in the shared dict and the
committed table. -/
def stC10 : ExecState :=
  { dict := fun s => if s = "SOL-USDT-SWAP" then some posC10 else none,
    table := fun s => if s = "SOL-USDT-SWAP" then some posC10 else none,
    reserved := 0 }

/-- Claim C10 counterexample: no signal-driven reduce ever completes, so
there is no successful reduce after which the stored reduce_times could
still be read by a next cycle: at this concrete input
try_reduce_position submits the reduce-only order and then blocks
forever inside update_position_after_reduce, and the committed table
still holds the original five-contract record with reduce_times 1,
never revisited by the blocked executor. -/
theorem signal_reduce_never_completes :
    (try_reduce_position "SOL-USDT-SWAP" defaultConfig ⟨true, some 90⟩
      stC10).isBlocked = true ∧
    (try_reduce_position "SOL-USDT-SWAP" defaultConfig ⟨true, some 90⟩
      stC10).stateAfter.table "SOL-USDT-SWAP" = some posC10 := by
  have h := try_reduce_long_blocks "SOL-USDT-SWAP" defaultConfig
    ⟨true, some 90⟩ stC10 posC10 rfl rfl rfl
  rw [h]
  exact ⟨rfl, rfl⟩

/-- Claim C10 (corrected): try_reduce_position does call
update_position_after_reduce with no new reduce_times value, and the
in-place dict mutation preserves the prior counter; but no signal-driven
reduce ever completes - the call blocks forever inside
update_position_after_reduce (order_executor.py line 534 hanging at
state_manager.py :201 -> :135), the committed table is never changed,
and there is no next cycle for the blocked executor. Whatever record the
shared dict still holds for the symbol carries the prior reduce_times,
observable only to other threads. -/
theorem reduce_blocks_reduce_times_preserved (symbol : String)
    (cfg : Config) (env : Env) (st : ExecState) (pos : Position)
    (hpos : st.dict symbol = some pos) (hdir : pos.direction = Dir.buy)
    (hsend : env.sendOk = true) :
    (try_reduce_position symbol cfg env st).isBlocked = true ∧
    (try_reduce_position symbol cfg env st).stateAfter.table = st.table ∧
    (∀ q : Position,
      (try_reduce_position symbol cfg env st).stateAfter.dict symbol = some q →
      q.reduce_times = pos.reduce_times ∧
      (q.reduce_times < cfg.MAX_REDUCE_TIMES ↔
        pos.reduce_times < cfg.MAX_REDUCE_TIMES)) := by
  have h := try_reduce_long_blocks symbol cfg env st pos hpos hdir hsend
  rw [h]
  refine ⟨rfl, rfl, ?_⟩
  intro q hq
  have hq' : applyReduce symbol (halfQty pos.contracts) none st.dict symbol =
      some q := hq
  rw [applyReduce_lookup symbol (halfQty pos.contracts) none st.dict pos hpos]
    at hq'
  by_cases hc : pos.contracts - halfQty pos.contracts ≤ 0
  · rw [if_pos hc] at hq'
    cases hq'
  · rw [if_neg hc] at hq'
    cases hq'
    exact ⟨rfl, Iff.rfl⟩

/-- Witness for reduce_blocks_reduce_times_preserved on the concrete
five-contract position with reduce_times 1. -/
theorem reduce_blocks_reduce_times_preserved_witness :
    stC10.dict "SOL-USDT-SWAP" = some posC10 ∧
    posC10.direction = Dir.buy ∧
    (try_reduce_position "SOL-USDT-SWAP" defaultConfig ⟨true, some 90⟩
      stC10).isBlocked = true :=
  ⟨rfl, rfl,
    (reduce_blocks_reduce_times_preserved "SOL-USDT-SWAP" defaultConfig
      ⟨true, some 90⟩ stC10 posC10 rfl rfl rfl).1⟩
